import Mathlib

set_option maxRecDepth 8000

namespace UrlRequestHttpJob

/-! Shallow embedding of src/net/url_request/url_request_http_job.cc.
    Each definition mirrors one function or field of URLRequestHttpJob; the
    theorems at the end of the file settle the claims about that code. -/

/-! ## Model of net::HttpRequestHeaders

A header set is a list of (name, value) pairs with at most one entry per
name; SetHeader replaces any existing entry, RemoveHeader drops it,
SetHeaderIfMissing only adds. getHeader returns the value of the first
entry with the given name, as HttpRequestHeaders::GetHeader does. -/

abbrev Headers := List (String × String)

def getHeader : Headers → String → Option String
  | [], _ => none
  | p :: rest, n => if p.1 = n then some p.2 else getHeader rest n

def removeHeader : Headers → String → Headers
  | [], _ => []
  | p :: rest, n => if p.1 = n then removeHeader rest n else p :: removeHeader rest n

def setHeader (h : Headers) (n v : String) : Headers :=
  removeHeader h n ++ [(n, v)]

def hasHeader (h : Headers) (n : String) : Bool :=
  (getHeader h n).isSome

def setHeaderIfMissing (h : Headers) (n v : String) : Headers :=
  if hasHeader h n then h else setHeader h n v

theorem getHeader_removeHeader_self (h : Headers) (n : String) :
    getHeader (removeHeader h n) n = none := by
  induction h with
  | nil => rfl
  | cons p rest ih =>
    by_cases hp : p.1 = n
    · simp [removeHeader, hp, ih]
    · simp [removeHeader, getHeader, hp, ih]

theorem getHeader_removeHeader_ne (h : Headers) {n m : String} (hnm : m ≠ n) :
    getHeader (removeHeader h n) m = getHeader h m := by
  have hnm' : ¬ n = m := fun e => hnm e.symm
  induction h with
  | nil => rfl
  | cons p rest ih =>
    by_cases hp : p.1 = n
    · simp [removeHeader, getHeader, hp, hnm', ih]
    · simp [removeHeader, getHeader, hp, ih]

theorem getHeader_append (h1 h2 : Headers) (n : String) :
    getHeader (h1 ++ h2) n =
      match getHeader h1 n with
      | some v => some v
      | none => getHeader h2 n := by
  induction h1 with
  | nil => rfl
  | cons p rest ih =>
    by_cases hp : p.1 = n
    · simp [getHeader, hp]
    · simp [getHeader, hp, ih]

theorem getHeader_setHeader_self (h : Headers) (n v : String) :
    getHeader (setHeader h n v) n = some v := by
  rw [setHeader, getHeader_append, getHeader_removeHeader_self]
  simp [getHeader]

theorem getHeader_setHeader_ne (h : Headers) (v : String) {n m : String} (hnm : m ≠ n) :
    getHeader (setHeader h n v) m = getHeader h m := by
  have hnm' : ¬ n = m := fun e => hnm e.symm
  rw [setHeader, getHeader_append, getHeader_removeHeader_ne h hnm]
  cases hg : getHeader h m with
  | some w => rfl
  | none => simp [getHeader, hnm']

theorem getHeader_setHeaderIfMissing_ne (h : Headers) (v : String) {n m : String}
    (hnm : m ≠ n) :
    getHeader (setHeaderIfMissing h n v) m = getHeader h m := by
  rw [setHeaderIfMissing]
  cases hh : hasHeader h n with
  | true => simp
  | false => simp [getHeader_setHeader_ne h v hnm]

theorem getHeader_setHeaderIfMissing_self (h : Headers) (n v : String) :
    getHeader (setHeaderIfMissing h n v) n =
      some ((getHeader h n).getD v) := by
  rw [setHeaderIfMissing]
  cases hg : getHeader h n with
  | some w => simp [hasHeader, hg]
  | none => simp [hasHeader, hg, getHeader_setHeader_self]

theorem hasHeader_eq_false_iff (h : Headers) (n : String) :
    hasHeader h n = false ↔ getHeader h n = none := by
  rw [hasHeader]
  cases hg : getHeader h n <;> simp

/-! ## Substring search

strContains s pat models std::string::find(pat) != std::string::npos, the
idiom Start() uses for all of its host/path/query tests. -/

def charsStartWith : List Char → List Char → Bool
  | [], _ => true
  | _ :: _, [] => false
  | p :: ps, c :: cs => p == c && charsStartWith ps cs

def charsContain (pat : List Char) : List Char → Bool
  | [] => pat.isEmpty
  | c :: cs => charsStartWith pat (c :: cs) || charsContain pat cs

def strContains (s pat : String) : Bool :=
  charsContain pat.toList s.toList

/-! ## Net error codes used by this file (values from net/base/net_error_list.h) -/

def OK : Int := 0

def ERR_CONTENT_LENGTH_MISMATCH : Int := -354

def ERR_INCOMPLETE_CHUNKED_ENCODING : Int := -355

/-! ## URLRequestHttpJob::ShouldFixMismatchedContentLength and OnReadCompleted

The response-headers argument is some cl when request_->response_headers()
is non-null, where cl is the value of GetContentLength() on those headers
(an Int, -1 when no Content-Length header is declared). postfilterBytesRead
is the post-decode byte counter postfilter_bytes_read(). -/

def shouldFixMismatchedContentLength (rv : Int) (responseContentLength : Option Int)
    (postfilterBytesRead : Int) : Bool :=
  if rv = ERR_CONTENT_LENGTH_MISMATCH ∨ rv = ERR_INCOMPLETE_CHUNKED_ENCODING then
    match responseContentLength with
    | some expected => postfilterBytesRead = expected
    | none => false
  else false

/-- The result value OnReadCompleted forwards onward: the incoming read
result rv, converted to OK exactly when ShouldFixMismatchedContentLength
accepts it. -/
def onReadCompletedResult (rv : Int) (responseContentLength : Option Int)
    (postfilterBytesRead : Int) : Int :=
  if shouldFixMismatchedContentLength rv responseContentLength postfilterBytesRead then OK
  else rv

/-! ## URLRequestHttpJob auth state machine (NeedsAuth, CancelAuth) -/

inductive AuthState where
  | AUTH_STATE_DONT_NEED_AUTH
  | AUTH_STATE_NEED_AUTH
  | AUTH_STATE_HAVE_AUTH
  | AUTH_STATE_CANCELED
  deriving DecidableEq

structure AuthJobState where
  proxy_auth_state : AuthState
  server_auth_state : AuthState
  deriving DecidableEq

/-- NeedsAuth(). The code argument is GetResponseCode(), which is -1 when
response_info_ is null. Returns the bool result plus the updated member
state. -/
def needsAuth (code : Int) (s : AuthJobState) : Bool × AuthJobState :=
  if code = -1 then (false, s)
  else if code = 407 then
    if s.proxy_auth_state = AuthState.AUTH_STATE_CANCELED then (false, s)
    else (true, { s with proxy_auth_state := AuthState.AUTH_STATE_NEED_AUTH })
  else if code = 401 then
    if s.server_auth_state = AuthState.AUTH_STATE_CANCELED then (false, s)
    else (true, { s with server_auth_state := AuthState.AUTH_STATE_NEED_AUTH })
  else (false, s)

/-- CancelAuth(): the proxy side is checked first, exactly as in the code;
the else branch (whose DCHECK asserts server_auth_state_ == NEED_AUTH)
cancels the server side. -/
def cancelAuth (s : AuthJobState) : AuthJobState :=
  if s.proxy_auth_state = AuthState.AUTH_STATE_NEED_AUTH then
    { s with proxy_auth_state := AuthState.AUTH_STATE_CANCELED }
  else
    { s with server_auth_state := AuthState.AUTH_STATE_CANCELED }

/-! ## URLRequestHttpJob::ProcessStrictTransportSecurityHeader

Booleans are the values of the external predicates the function branches
on: ssl_info.is_valid(), IsCertStatusError(ssl_info.cert_status), whether
transport_security_state() is non-null, and url.HostIsIPAddress().
The result is some (host, value) when AddHSTSHeader(host, value) is
called, none when the header is ignored. EnumerateHeader with a null
iterator yields the first header line with the given name. -/

def processStrictTransportSecurityHeader (sslIsValid certStatusError securityStatePresent
    hostIsIPAddress : Bool) (host : String) (responseHeaders : List (String × String)) :
    Option (String × String) :=
  if !sslIsValid || certStatusError || !securityStatePresent then none
  else if hostIsIPAddress then none
  else
    match responseHeaders.find? (fun p => p.1 == "Strict-Transport-Security") with
    | some p => some (host, p.2)
    | none => none

/-! ## URLRequestHttpJob::IsSafeRedirect -/

structure RedirectLocation where
  is_valid : Bool
  scheme : String
  deriving DecidableEq

/-- IsSafeRedirect(location). jobFactoryApproves is some f when
request_->context()->job_factory() is non-null, f being its
IsSafeRedirectTarget predicate. -/
def isSafeRedirect (jobFactoryApproves : Option (RedirectLocation → Bool))
    (location : RedirectLocation) : Bool :=
  if location.is_valid && (location.scheme == "http" || location.scheme == "https") then
    true
  else
    match jobFactoryApproves with
    | some f => f location
    | none => false

/-! ## URLRequestHttpJob::Start and URLRequestHttpJob::AddExtraHeaders

RequestModel carries exactly the inputs these two functions read:
the components of request_->url(), the validity and spec of the referrer
GURL, the http_user_agent_settings_ collaborator, the feature flag for
Accept-Language, the SourceStream capability flags consulted by
request_->Supports, enable_brotli(), the outcome of
SchemeIsCryptographic() and IsLocalhost(), and the caller supplied
extra_headers. -/

structure RequestModel where
  host : String
  path : String
  query : String
  referrerValid : Bool
  referrerSpec : String
  hasUserAgentSettings : Bool
  userAgentSetting : String
  acceptLanguageSetting : String
  acceptLanguageFeatureEnabled : Bool
  supportsGzip : Bool
  supportsDeflate : Bool
  supportsBrotli : Bool
  enableBrotli : Bool
  schemeIsCryptographic : Bool
  isLocalhost : Bool
  extraHeaders : Headers
  deriving DecidableEq

def operaUA : String :=
  "Mozilla/5.0 (X11; Linux x86_64) AppleWebKit/537.36 (KHTML, like Gecko) Chrome/73.0.3683.86 Safari/537.36 OPR/60.0.3255.27 (Edition developer)"

def chromeWebStoreUA : String :=
  "Mozilla/5.0 (X11; Linux x86_64) AppleWebKit/537.36 (KHTML, like Gecko) Chrome/93.0.4577.25 Safari/537.36"

def whatsappUA : String :=
  "Mozilla/5.0 (X11; Linux) AppleWebKit/537.36 (KHTML, like Gecko) Chrome/93.0.4577.25 Mobile Safari/537.36"

def messengerUA : String :=
  "Mozilla/5.0 (X11; Ubuntu; Linux x86_64; rv:57.0) Gecko/20100101 Firefox/57.0"

def facebookUA : String :=
  "Mozilla/5.0 (Mobile; rv:48.0; A405DL) Gecko/48.0 Firefox/48.0 KAIOS/2.5"

def newsGoogleUA : String :=
  "Mozilla/5.0 (Linux; Android 9; ONEPLUS A6003) AppleWebKit/537.36 (KHTML, like Gecko) Chrome/71.0.3578.99 Mobile Safari/537.36"

def consentPathToken : String :=
  "CAAqJggKIiBDQkFTRWdvSUwyMHZNRFZxYUdjU0FtVnVHZ0pWVXlnQVAB"

def consentCookie : String :=
  "CONSENT=YES+srp.gws-20210610-0-RC2.en+FX+320;"

/-- The hard coded User-Agent the else-if chain in Start() imposes for the
given host and path, none when no branch of the chain matches. -/
def uaOverride (host path : String) : Option String :=
  if strContains host "addons.opera.com" then some operaUA
  else if strContains host "chrome.google.com" then some chromeWebStoreUA
  else if strContains host "web.whatsapp.com" then some whatsappUA
  else if strContains host "messenger.com" then some messengerUA
  else if strContains host "facebook.com" then some facebookUA
  else if strContains host "news.google.com" && strContains path consentPathToken then
    some newsGoogleUA
  else none

/-- Lines 297-308 of Start(): strip Referer, then reinstate it only when
the referrer GURL is valid. -/
def applyReferer (r : RequestModel) (h : Headers) : Headers :=
  let h := removeHeader h "Referer"
  if r.referrerValid then setHeader h "Referer" r.referrerSpec else h

/-- Lines 310-313 of Start(): SetHeaderIfMissing of the default
User-Agent (the empty string when http_user_agent_settings_ is null). -/
def applyUserAgentDefault (r : RequestModel) (h : Headers) : Headers :=
  setHeaderIfMissing h "User-Agent"
    (if r.hasUserAgentSettings then r.userAgentSetting else "")

/-- Lines 315-339 of Start(): the else-if chain of hard coded
User-Agent overrides; the news.google.com branch additionally sets a
hard coded Cookie header. -/
def applySiteOverrides (r : RequestModel) (h : Headers) : Headers :=
  if strContains r.host "addons.opera.com" then setHeader h "User-Agent" operaUA
  else if strContains r.host "chrome.google.com" then setHeader h "User-Agent" chromeWebStoreUA
  else if strContains r.host "web.whatsapp.com" then setHeader h "User-Agent" whatsappUA
  else if strContains r.host "messenger.com" then setHeader h "User-Agent" messengerUA
  else if strContains r.host "facebook.com" then setHeader h "User-Agent" facebookUA
  else if strContains r.host "news.google.com" && strContains r.path consentPathToken then
    setHeader (setHeader h "User-Agent" newsGoogleUA) "Cookie" consentCookie
  else h

/-- Lines 341-343 of Start(): X-Forwarded-For for washingtonpost.com hosts. -/
def applyForwardedFor (r : RequestModel) (h : Headers) : Headers :=
  if strContains r.host "washingtonpost.com" then setHeader h "X-Forwarded-For" "1.1.1.1"
  else h

/-- Lines 345-347 of Start(): drop the Referer again for amazon hosts with
a kbdirect query. -/
def applyAmazonReferer (r : RequestModel) (h : Headers) : Headers :=
  if strContains r.host "amazon" && strContains r.query "kbdirect" then
    removeHeader h "Referer"
  else h

/-- The advertised_encoding_names vector built by AddExtraHeaders. -/
def advertisedEncodingNames (r : RequestModel) : List String :=
  (if r.supportsGzip then ["gzip"] else []) ++
  (if r.supportsDeflate then ["deflate"] else []) ++
  (if r.enableBrotli && r.supportsBrotli &&
      (r.schemeIsCryptographic || r.isLocalhost) then ["br"] else [])

/-- First half of AddExtraHeaders: the Accept-Encoding logic. A Range
header forces identity; otherwise the advertised encodings are joined
with a comma, and no header at all is set when the vector is empty. -/
def applyAcceptEncoding (r : RequestModel) (h0 : Headers) : Headers :=
  if hasHeader h0 "Accept-Encoding" then h0
  else if hasHeader h0 "Range" then setHeader h0 "Accept-Encoding" "identity"
  else if (advertisedEncodingNames r).isEmpty then h0
  else setHeader h0 "Accept-Encoding" (String.intercalate ", " (advertisedEncodingNames r))

/-- Second half of AddExtraHeaders: the default Accept-Language, added
only when http_user_agent_settings_ is present, the feature flag is on
and the configured value is nonempty, and then only if missing. -/
def applyAcceptLanguage (r : RequestModel) (h : Headers) : Headers :=
  if r.hasUserAgentSettings then
    if r.acceptLanguageFeatureEnabled && r.acceptLanguageSetting != "" then
      setHeaderIfMissing h "Accept-Language" r.acceptLanguageSetting
    else h
  else h

/-- URLRequestHttpJob::AddExtraHeaders. -/
def addExtraHeaders (r : RequestModel) (h0 : Headers) : Headers :=
  applyAcceptLanguage r (applyAcceptEncoding r h0)

/-- The header manipulation done inline in Start() itself, before it calls
AddExtraHeaders. -/
def startSpecialHeaders (r : RequestModel) : Headers :=
  applyAmazonReferer r (applyForwardedFor r (applySiteOverrides r
    (applyUserAgentDefault r (applyReferer r r.extraHeaders))))

/-- The outgoing extra headers as they stand when Start() hands off to
AddCookieHeaderAndStart: the inline Start() manipulation followed by
AddExtraHeaders. -/
def startRequestHeaders (r : RequestModel) : Headers :=
  addExtraHeaders r (startSpecialHeaders r)

/-! ### Per-stage header lemmas for Start() and AddExtraHeaders -/

theorem getHeader_applyReferer_ne (r : RequestModel) (h : Headers) {n : String}
    (hn : n ≠ "Referer") :
    getHeader (applyReferer r h) n = getHeader h n := by
  unfold applyReferer
  by_cases hv : r.referrerValid = true
  · simp [hv, getHeader_setHeader_ne _ _ hn, getHeader_removeHeader_ne _ hn]
  · simp [hv, getHeader_removeHeader_ne _ hn]

theorem getHeader_applyReferer_referer (r : RequestModel) (h : Headers) :
    getHeader (applyReferer r h) "Referer" =
      if r.referrerValid then some r.referrerSpec else none := by
  unfold applyReferer
  by_cases hv : r.referrerValid = true
  · simp [hv, getHeader_setHeader_self]
  · simp [hv, getHeader_removeHeader_self]

theorem getHeader_applyUserAgentDefault_ne (r : RequestModel) (h : Headers) {n : String}
    (hn : n ≠ "User-Agent") :
    getHeader (applyUserAgentDefault r h) n = getHeader h n := by
  unfold applyUserAgentDefault
  rw [getHeader_setHeaderIfMissing_ne _ _ hn]

theorem getHeader_applyUserAgentDefault_ua (r : RequestModel) (h : Headers) :
    getHeader (applyUserAgentDefault r h) "User-Agent" =
      some ((getHeader h "User-Agent").getD
        (if r.hasUserAgentSettings then r.userAgentSetting else "")) := by
  unfold applyUserAgentDefault
  rw [getHeader_setHeaderIfMissing_self]

theorem getHeader_applySiteOverrides_ne (r : RequestModel) (h : Headers) {n : String}
    (hn1 : n ≠ "User-Agent") (hn2 : n ≠ "Cookie") :
    getHeader (applySiteOverrides r h) n = getHeader h n := by
  unfold applySiteOverrides
  repeat' split
  all_goals simp [getHeader_setHeader_ne _ _ hn1, getHeader_setHeader_ne _ _ hn2]

theorem getHeader_applySiteOverrides_ua (r : RequestModel) (h : Headers) :
    getHeader (applySiteOverrides r h) "User-Agent" =
      (uaOverride r.host r.path).elim (getHeader h "User-Agent") some := by
  unfold applySiteOverrides uaOverride
  by_cases h1 : strContains r.host "addons.opera.com" = true
  · simp [h1, getHeader_setHeader_self]
  by_cases h2 : strContains r.host "chrome.google.com" = true
  · simp [h1, h2, getHeader_setHeader_self]
  by_cases h3 : strContains r.host "web.whatsapp.com" = true
  · simp [h1, h2, h3, getHeader_setHeader_self]
  by_cases h4 : strContains r.host "messenger.com" = true
  · simp [h1, h2, h3, h4, getHeader_setHeader_self]
  by_cases h5 : strContains r.host "facebook.com" = true
  · simp [h1, h2, h3, h4, h5, getHeader_setHeader_self]
  by_cases h6 : (strContains r.host "news.google.com" && strContains r.path consentPathToken) = true
  · simp [h1, h2, h3, h4, h5, h6, getHeader_setHeader_self,
      getHeader_setHeader_ne _ _ (by decide : ("User-Agent" : String) ≠ "Cookie")]
  · simp [h1, h2, h3, h4, h5, h6]

theorem getHeader_applyForwardedFor_ne (r : RequestModel) (h : Headers) {n : String}
    (hn : n ≠ "X-Forwarded-For") :
    getHeader (applyForwardedFor r h) n = getHeader h n := by
  unfold applyForwardedFor
  by_cases hw : strContains r.host "washingtonpost.com" = true
  · simp [hw, getHeader_setHeader_ne _ _ hn]
  · simp [hw]

theorem getHeader_applyForwardedFor_xff (r : RequestModel) (h : Headers) :
    getHeader (applyForwardedFor r h) "X-Forwarded-For" =
      if strContains r.host "washingtonpost.com" then some "1.1.1.1"
      else getHeader h "X-Forwarded-For" := by
  unfold applyForwardedFor
  by_cases hw : strContains r.host "washingtonpost.com" = true
  · simp [hw, getHeader_setHeader_self]
  · simp [hw]

theorem getHeader_applyAmazonReferer_ne (r : RequestModel) (h : Headers) {n : String}
    (hn : n ≠ "Referer") :
    getHeader (applyAmazonReferer r h) n = getHeader h n := by
  unfold applyAmazonReferer
  by_cases ha : (strContains r.host "amazon" && strContains r.query "kbdirect") = true
  · simp [ha, getHeader_removeHeader_ne _ hn]
  · simp [ha]

theorem getHeader_applyAmazonReferer_referer (r : RequestModel) (h : Headers) :
    getHeader (applyAmazonReferer r h) "Referer" =
      if strContains r.host "amazon" && strContains r.query "kbdirect" then none
      else getHeader h "Referer" := by
  unfold applyAmazonReferer
  by_cases ha : (strContains r.host "amazon" && strContains r.query "kbdirect") = true
  · simp [ha, getHeader_removeHeader_self]
  · simp [ha]

theorem getHeader_applyAcceptEncoding_ne (r : RequestModel) (h0 : Headers) {n : String}
    (hn : n ≠ "Accept-Encoding") :
    getHeader (applyAcceptEncoding r h0) n = getHeader h0 n := by
  unfold applyAcceptEncoding
  repeat' split
  all_goals simp [getHeader_setHeader_ne _ _ hn]

theorem getHeader_applyAcceptEncoding_ae (r : RequestModel) (h0 : Headers) :
    getHeader (applyAcceptEncoding r h0) "Accept-Encoding" =
      if hasHeader h0 "Accept-Encoding" then getHeader h0 "Accept-Encoding"
      else if hasHeader h0 "Range" then some "identity"
      else if (advertisedEncodingNames r).isEmpty then none
      else some (String.intercalate ", " (advertisedEncodingNames r)) := by
  unfold applyAcceptEncoding
  by_cases ha : hasHeader h0 "Accept-Encoding" = true
  · simp [ha]
  have ha' : getHeader h0 "Accept-Encoding" = none :=
    (hasHeader_eq_false_iff h0 "Accept-Encoding").mp (by simpa using ha)
  by_cases hr : hasHeader h0 "Range" = true
  · simp [ha, hr, getHeader_setHeader_self]
  by_cases he : (advertisedEncodingNames r).isEmpty = true
  · simp [ha, hr, he, ha']
  · simp [ha, hr, he, getHeader_setHeader_self]

theorem getHeader_applyAcceptLanguage_ne (r : RequestModel) (h : Headers) {n : String}
    (hn : n ≠ "Accept-Language") :
    getHeader (applyAcceptLanguage r h) n = getHeader h n := by
  unfold applyAcceptLanguage
  repeat' split
  all_goals simp [getHeader_setHeaderIfMissing_ne _ _ hn]

theorem getHeader_applyAcceptLanguage_al (r : RequestModel) (h : Headers) :
    getHeader (applyAcceptLanguage r h) "Accept-Language" =
      if r.hasUserAgentSettings &&
          (r.acceptLanguageFeatureEnabled && r.acceptLanguageSetting != "") then
        some ((getHeader h "Accept-Language").getD r.acceptLanguageSetting)
      else getHeader h "Accept-Language" := by
  unfold applyAcceptLanguage
  by_cases hu : r.hasUserAgentSettings = true
  · by_cases hf : (r.acceptLanguageFeatureEnabled && r.acceptLanguageSetting != "") = true
    · simp [hu, hf, getHeader_setHeaderIfMissing_self]
    · simp [hu, hf]
  · simp [hu]

theorem getHeader_addExtraHeaders_ne (r : RequestModel) (h0 : Headers) {n : String}
    (hn1 : n ≠ "Accept-Encoding") (hn2 : n ≠ "Accept-Language") :
    getHeader (addExtraHeaders r h0) n = getHeader h0 n := by
  unfold addExtraHeaders
  rw [getHeader_applyAcceptLanguage_ne _ _ hn2, getHeader_applyAcceptEncoding_ne _ _ hn1]

theorem getHeader_startSpecialHeaders_ne (r : RequestModel) {n : String}
    (hn1 : n ≠ "Referer") (hn2 : n ≠ "User-Agent") (hn3 : n ≠ "Cookie")
    (hn4 : n ≠ "X-Forwarded-For") :
    getHeader (startSpecialHeaders r) n = getHeader r.extraHeaders n := by
  unfold startSpecialHeaders
  rw [getHeader_applyAmazonReferer_ne _ _ hn1, getHeader_applyForwardedFor_ne _ _ hn4,
    getHeader_applySiteOverrides_ne _ _ hn2 hn3, getHeader_applyUserAgentDefault_ne _ _ hn2,
    getHeader_applyReferer_ne _ _ hn1]

theorem hasHeader_startSpecialHeaders_ne (r : RequestModel) {n : String}
    (hn1 : n ≠ "Referer") (hn2 : n ≠ "User-Agent") (hn3 : n ≠ "Cookie")
    (hn4 : n ≠ "X-Forwarded-For") :
    hasHeader (startSpecialHeaders r) n = hasHeader r.extraHeaders n := by
  rw [hasHeader, hasHeader, getHeader_startSpecialHeaders_ne r hn1 hn2 hn3 hn4]

/-! ### End-to-end header lemmas for Start() -/

theorem getHeader_startRequestHeaders_referer (r : RequestModel)
    (hamzn : (strContains r.host "amazon" && strContains r.query "kbdirect") = false) :
    getHeader (startRequestHeaders r) "Referer" =
      if r.referrerValid then some r.referrerSpec else none := by
  unfold startRequestHeaders startSpecialHeaders
  rw [getHeader_addExtraHeaders_ne _ _ (by decide) (by decide),
    getHeader_applyAmazonReferer_referer, hamzn, if_neg Bool.false_ne_true,
    getHeader_applyForwardedFor_ne _ _ (by decide),
    getHeader_applySiteOverrides_ne _ _ (by decide) (by decide),
    getHeader_applyUserAgentDefault_ne _ _ (by decide),
    getHeader_applyReferer_referer]

theorem getHeader_startRequestHeaders_ua (r : RequestModel) :
    getHeader (startRequestHeaders r) "User-Agent" =
      (uaOverride r.host r.path).elim
        (some ((getHeader r.extraHeaders "User-Agent").getD
          (if r.hasUserAgentSettings then r.userAgentSetting else ""))) some := by
  unfold startRequestHeaders startSpecialHeaders
  rw [getHeader_addExtraHeaders_ne _ _ (by decide) (by decide),
    getHeader_applyAmazonReferer_ne _ _ (by decide),
    getHeader_applyForwardedFor_ne _ _ (by decide),
    getHeader_applySiteOverrides_ua,
    getHeader_applyUserAgentDefault_ua,
    getHeader_applyReferer_ne _ _ (by decide)]

theorem getHeader_startRequestHeaders_al (r : RequestModel) :
    getHeader (startRequestHeaders r) "Accept-Language" =
      if r.hasUserAgentSettings &&
          (r.acceptLanguageFeatureEnabled && r.acceptLanguageSetting != "") then
        some ((getHeader r.extraHeaders "Accept-Language").getD r.acceptLanguageSetting)
      else getHeader r.extraHeaders "Accept-Language" := by
  unfold startRequestHeaders addExtraHeaders
  rw [getHeader_applyAcceptLanguage_al,
    getHeader_applyAcceptEncoding_ne _ _ (by decide),
    getHeader_startSpecialHeaders_ne r (by decide) (by decide) (by decide) (by decide)]

theorem getHeader_startRequestHeaders_ae (r : RequestModel) :
    getHeader (startRequestHeaders r) "Accept-Encoding" =
      if hasHeader r.extraHeaders "Accept-Encoding" then
        getHeader r.extraHeaders "Accept-Encoding"
      else if hasHeader r.extraHeaders "Range" then some "identity"
      else if (advertisedEncodingNames r).isEmpty then none
      else some (String.intercalate ", " (advertisedEncodingNames r)) := by
  unfold startRequestHeaders addExtraHeaders
  rw [getHeader_applyAcceptLanguage_ne _ _ (by decide), getHeader_applyAcceptEncoding_ae,
    getHeader_startSpecialHeaders_ne r (by decide) (by decide) (by decide) (by decide),
    hasHeader_startSpecialHeaders_ne r (by decide) (by decide) (by decide) (by decide),
    hasHeader_startSpecialHeaders_ne r (by decide) (by decide) (by decide) (by decide)]

theorem getHeader_startRequestHeaders_cookie_news (r : RequestModel)
    (h1 : strContains r.host "addons.opera.com" = false)
    (h2 : strContains r.host "chrome.google.com" = false)
    (h3 : strContains r.host "web.whatsapp.com" = false)
    (h4 : strContains r.host "messenger.com" = false)
    (h5 : strContains r.host "facebook.com" = false)
    (h6 : strContains r.host "news.google.com" = true)
    (h7 : strContains r.path consentPathToken = true) :
    getHeader (startRequestHeaders r) "Cookie" = some consentCookie := by
  unfold startRequestHeaders startSpecialHeaders applySiteOverrides
  rw [getHeader_addExtraHeaders_ne _ _ (by decide) (by decide),
    getHeader_applyAmazonReferer_ne _ _ (by decide),
    getHeader_applyForwardedFor_ne _ _ (by decide)]
  simp [h1, h2, h3, h4, h5, h6, h7, getHeader_setHeader_self]

theorem getHeader_startRequestHeaders_xff (r : RequestModel)
    (hw : strContains r.host "washingtonpost.com" = true) :
    getHeader (startRequestHeaders r) "X-Forwarded-For" = some "1.1.1.1" := by
  unfold startRequestHeaders startSpecialHeaders
  rw [getHeader_addExtraHeaders_ne _ _ (by decide) (by decide),
    getHeader_applyAmazonReferer_ne _ _ (by decide),
    getHeader_applyForwardedFor_xff, hw, if_pos rfl]

theorem getHeader_startRequestHeaders_referer_amazon (r : RequestModel)
    (ha : strContains r.host "amazon" = true) (hq : strContains r.query "kbdirect" = true) :
    getHeader (startRequestHeaders r) "Referer" = none := by
  unfold startRequestHeaders startSpecialHeaders
  rw [getHeader_addExtraHeaders_ne _ _ (by decide) (by decide),
    getHeader_applyAmazonReferer_referer, ha, hq]
  simp

theorem mem_advertisedEncodingNames_br (r : RequestModel) :
    ("br" ∈ advertisedEncodingNames r) ↔
      (r.enableBrotli = true ∧ r.supportsBrotli = true ∧
        (r.schemeIsCryptographic = true ∨ r.isLocalhost = true)) := by
  unfold advertisedEncodingNames
  cases h1 : r.supportsGzip <;> cases h2 : r.supportsDeflate <;> cases h3 : r.enableBrotli <;>
    cases h4 : r.supportsBrotli <;> cases h5 : r.schemeIsCryptographic <;>
      cases h6 : r.isLocalhost <;> simp

theorem mem_advertisedEncodingNames_gzip (r : RequestModel) :
    ("gzip" ∈ advertisedEncodingNames r) ↔ r.supportsGzip = true := by
  unfold advertisedEncodingNames
  cases h1 : r.supportsGzip <;> cases h2 : r.supportsDeflate <;> cases h3 : r.enableBrotli <;>
    cases h4 : r.supportsBrotli <;> cases h5 : r.schemeIsCryptographic <;>
      cases h6 : r.isLocalhost <;> simp

theorem mem_advertisedEncodingNames_deflate (r : RequestModel) :
    ("deflate" ∈ advertisedEncodingNames r) ↔ r.supportsDeflate = true := by
  unfold advertisedEncodingNames
  cases h1 : r.supportsGzip <;> cases h2 : r.supportsDeflate <;> cases h3 : r.enableBrotli <;>
    cases h4 : r.supportsBrotli <;> cases h5 : r.schemeIsCryptographic <;>
      cases h6 : r.isLocalhost <;> simp

/-! ### Claim C2 -/

/-- A concrete request whose host contains amazon and whose query contains
kbdirect, with a valid referrer. -/
def amazonKbRequest : RequestModel :=
  { host := "www.amazon.com", path := "/gp/product", query := "tag=x&kbdirect=1",
    referrerValid := true, referrerSpec := "https://referrer.example/a",
    hasUserAgentSettings := true, userAgentSetting := "TestAgent/1.0",
    acceptLanguageSetting := "en-US,en", acceptLanguageFeatureEnabled := true,
    supportsGzip := true, supportsDeflate := true, supportsBrotli := true,
    enableBrotli := true, schemeIsCryptographic := true, isLocalhost := false,
    extraHeaders := [] }

/-- C2 counterexample: the claim asserts the Referer header is reinstated
exactly when the referrer URL is valid. On amazonKbRequest the referrer is
valid, yet the hard coded amazon/kbdirect branch at the end of Start()
removes the Referer again, so the final headers carry none. -/
theorem C2_referer_counterexample :
    amazonKbRequest.referrerValid = true ∧
    getHeader (startRequestHeaders amazonKbRequest) "Referer" = none := by
  exact ⟨rfl, by decide⟩

/-- C2 (amended): for every request that does not match any of the hard
coded site-specific branches of Start() (no User-Agent override host, and
not the amazon/kbdirect pair), Start() builds the outgoing extra headers
so that the Referer is first removed and reinstated exactly when the
referrer URL is valid; the default User-Agent and default Accept-Language
are injected only if absent; and Accept-Encoding, when absent, is set to
identity whenever a Range header is present and otherwise advertises
gzip/deflate/br according to the capability flags, br only for a
cryptographic or localhost origin. -/
theorem C2_start_header_construction (r : RequestModel)
    (hover : uaOverride r.host r.path = none)
    (hamzn : (strContains r.host "amazon" && strContains r.query "kbdirect") = false) :
    getHeader (startRequestHeaders r) "Referer" =
      (if r.referrerValid then some r.referrerSpec else none) ∧
    getHeader (startRequestHeaders r) "User-Agent" =
      some ((getHeader r.extraHeaders "User-Agent").getD
        (if r.hasUserAgentSettings then r.userAgentSetting else "")) ∧
    (hasHeader r.extraHeaders "Accept-Language" = true →
      getHeader (startRequestHeaders r) "Accept-Language" =
        getHeader r.extraHeaders "Accept-Language") ∧
    (hasHeader r.extraHeaders "Accept-Language" = false → r.hasUserAgentSettings = true →
      r.acceptLanguageFeatureEnabled = true → r.acceptLanguageSetting ≠ "" →
      getHeader (startRequestHeaders r) "Accept-Language" = some r.acceptLanguageSetting) ∧
    (hasHeader r.extraHeaders "Accept-Encoding" = true →
      getHeader (startRequestHeaders r) "Accept-Encoding" =
        getHeader r.extraHeaders "Accept-Encoding") ∧
    (hasHeader r.extraHeaders "Accept-Encoding" = false →
      hasHeader r.extraHeaders "Range" = true →
      getHeader (startRequestHeaders r) "Accept-Encoding" = some "identity") ∧
    (hasHeader r.extraHeaders "Accept-Encoding" = false →
      hasHeader r.extraHeaders "Range" = false →
      getHeader (startRequestHeaders r) "Accept-Encoding" =
        (if (advertisedEncodingNames r).isEmpty then none
         else some (String.intercalate ", " (advertisedEncodingNames r)))) ∧
    ("br" ∈ advertisedEncodingNames r ↔
      (r.enableBrotli = true ∧ r.supportsBrotli = true ∧
        (r.schemeIsCryptographic = true ∨ r.isLocalhost = true))) ∧
    ("gzip" ∈ advertisedEncodingNames r ↔ r.supportsGzip = true) ∧
    ("deflate" ∈ advertisedEncodingNames r ↔ r.supportsDeflate = true) := by
  refine ⟨?_, ?_, ?_, ?_, ?_, ?_, ?_, ?_, ?_, ?_⟩
  · exact getHeader_startRequestHeaders_referer r hamzn
  · rw [getHeader_startRequestHeaders_ua, hover]
    rfl
  · intro hal
    rw [getHeader_startRequestHeaders_al]
    rw [hasHeader] at hal
    cases hg : getHeader r.extraHeaders "Accept-Language" with
    | none => rw [hg] at hal; simp at hal
    | some v => split <;> simp
  · intro h0 hu hf hs
    have hg := (hasHeader_eq_false_iff _ _).mp h0
    rw [getHeader_startRequestHeaders_al, hu, hf, hg]
    simp [hs]
  · intro hae
    rw [getHeader_startRequestHeaders_ae, hae, if_pos rfl]
  · intro h0 hr
    rw [getHeader_startRequestHeaders_ae, h0, hr]
    simp
  · intro h0 hr
    rw [getHeader_startRequestHeaders_ae, h0, hr]
    simp
  · exact mem_advertisedEncodingNames_br r
  · exact mem_advertisedEncodingNames_gzip r
  · exact mem_advertisedEncodingNames_deflate r

/-- A concrete ordinary request (no special-cased host), with a Range
header supplied and no Accept-Encoding. -/
def plainRangeRequest : RequestModel :=
  { host := "www.example.com", path := "/video.mp4", query := "",
    referrerValid := true, referrerSpec := "https://referrer.example/b",
    hasUserAgentSettings := true, userAgentSetting := "TestAgent/1.0",
    acceptLanguageSetting := "en-US,en", acceptLanguageFeatureEnabled := true,
    supportsGzip := true, supportsDeflate := true, supportsBrotli := true,
    enableBrotli := true, schemeIsCryptographic := true, isLocalhost := false,
    extraHeaders := [("Range", "bytes=0-100")] }

/-- Witness for C2_start_header_construction at plainRangeRequest. -/
theorem C2_start_header_construction_witness :
    uaOverride plainRangeRequest.host plainRangeRequest.path = none ∧
    (strContains plainRangeRequest.host "amazon" &&
      strContains plainRangeRequest.query "kbdirect") = false ∧
    getHeader (startRequestHeaders plainRangeRequest) "Referer" =
      some "https://referrer.example/b" ∧
    getHeader (startRequestHeaders plainRangeRequest) "Accept-Encoding" = some "identity" := by
  refine ⟨by decide, by decide, ?_, ?_⟩
  · exact ((C2_start_header_construction plainRangeRequest (by decide) (by decide)).1).trans
      (by decide)
  · exact ((C2_start_header_construction plainRangeRequest (by decide)
      (by decide)).2.2.2.2.2.1) (by decide) (by decide)

/-! ### Claim C9 -/

/-- C9: for every request whose host contains one of the hard coded
substrings (or news.google.com together with the hard coded path token),
Start() overwrites the User-Agent header with one of the fixed hard coded
browser identification strings, and the value is the same no matter what
User-Agent the caller supplied. -/
theorem C9_hardcoded_user_agent (r : RequestModel)
    (hcond : strContains r.host "addons.opera.com" = true ∨
      strContains r.host "chrome.google.com" = true ∨
      strContains r.host "web.whatsapp.com" = true ∨
      strContains r.host "messenger.com" = true ∨
      strContains r.host "facebook.com" = true ∨
      (strContains r.host "news.google.com" = true ∧
        strContains r.path consentPathToken = true)) :
    ∃ ua, uaOverride r.host r.path = some ua ∧
      ua ∈ [operaUA, chromeWebStoreUA, whatsappUA, messengerUA, facebookUA, newsGoogleUA] ∧
      ∀ callerHeaders : Headers,
        getHeader (startRequestHeaders { r with extraHeaders := callerHeaders })
          "User-Agent" = some ua := by
  have hsome : ∃ ua, uaOverride r.host r.path = some ua ∧
      ua ∈ [operaUA, chromeWebStoreUA, whatsappUA, messengerUA, facebookUA, newsGoogleUA] := by
    by_cases h1 : strContains r.host "addons.opera.com" = true
    · exact ⟨operaUA, by simp [uaOverride, h1], by simp⟩
    by_cases h2 : strContains r.host "chrome.google.com" = true
    · exact ⟨chromeWebStoreUA, by simp [uaOverride, h1, h2], by simp⟩
    by_cases h3 : strContains r.host "web.whatsapp.com" = true
    · exact ⟨whatsappUA, by simp [uaOverride, h1, h2, h3], by simp⟩
    by_cases h4 : strContains r.host "messenger.com" = true
    · exact ⟨messengerUA, by simp [uaOverride, h1, h2, h3, h4], by simp⟩
    by_cases h5 : strContains r.host "facebook.com" = true
    · exact ⟨facebookUA, by simp [uaOverride, h1, h2, h3, h4, h5], by simp⟩
    · have hnews : strContains r.host "news.google.com" = true ∧
          strContains r.path consentPathToken = true := by
        rcases hcond with hc | hc | hc | hc | hc | hc
        · exact absurd hc h1
        · exact absurd hc h2
        · exact absurd hc h3
        · exact absurd hc h4
        · exact absurd hc h5
        · exact hc
      exact ⟨newsGoogleUA,
        by simp [uaOverride, h1, h2, h3, h4, h5, hnews.1, hnews.2], by simp⟩
  obtain ⟨ua, hua, hmem⟩ := hsome
  refine ⟨ua, hua, hmem, fun callerHeaders => ?_⟩
  rw [getHeader_startRequestHeaders_ua]
  simp only [] at hua ⊢
  rw [show ({ r with extraHeaders := callerHeaders } : RequestModel).host = r.host from rfl,
    show ({ r with extraHeaders := callerHeaders } : RequestModel).path = r.path from rfl, hua]
  rfl

/-- A concrete whatsapp-host request where the caller supplied its own
User-Agent header. -/
def whatsappRequest : RequestModel :=
  { host := "web.whatsapp.com", path := "/", query := "",
    referrerValid := false, referrerSpec := "",
    hasUserAgentSettings := true, userAgentSetting := "TestAgent/1.0",
    acceptLanguageSetting := "en-US,en", acceptLanguageFeatureEnabled := true,
    supportsGzip := true, supportsDeflate := true, supportsBrotli := true,
    enableBrotli := true, schemeIsCryptographic := true, isLocalhost := false,
    extraHeaders := [("User-Agent", "CallerAgent/2.0")] }

/-- Witness for C9_hardcoded_user_agent at whatsappRequest. -/
theorem C9_hardcoded_user_agent_witness :
    (strContains whatsappRequest.host "addons.opera.com" = true ∨
      strContains whatsappRequest.host "chrome.google.com" = true ∨
      strContains whatsappRequest.host "web.whatsapp.com" = true ∨
      strContains whatsappRequest.host "messenger.com" = true ∨
      strContains whatsappRequest.host "facebook.com" = true ∨
      (strContains whatsappRequest.host "news.google.com" = true ∧
        strContains whatsappRequest.path consentPathToken = true)) ∧
    (∃ ua, uaOverride whatsappRequest.host whatsappRequest.path = some ua ∧
      ua ∈ [operaUA, chromeWebStoreUA, whatsappUA, messengerUA, facebookUA, newsGoogleUA] ∧
      ∀ callerHeaders : Headers,
        getHeader (startRequestHeaders { whatsappRequest with extraHeaders := callerHeaders })
          "User-Agent" = some ua) :=
  ⟨by decide, C9_hardcoded_user_agent whatsappRequest (by decide)⟩

/-! ### Claim C10 -/

/-- C10: the fixed headers Start() injects that come neither from the
caller nor from the cookie jar: the hard coded consent Cookie for
news.google.com requests with the hard coded path token (set directly in
Start(), before the cookie-read protocol or privacy mode is ever
consulted), the X-Forwarded-For 1.1.1.1 for washingtonpost.com hosts, and
the removal of the Referer (valid or not) for amazon hosts with a
kbdirect query. -/
theorem C10_fixed_injected_headers
    (rNews : RequestModel)
    (h1 : strContains rNews.host "addons.opera.com" = false)
    (h2 : strContains rNews.host "chrome.google.com" = false)
    (h3 : strContains rNews.host "web.whatsapp.com" = false)
    (h4 : strContains rNews.host "messenger.com" = false)
    (h5 : strContains rNews.host "facebook.com" = false)
    (h6 : strContains rNews.host "news.google.com" = true)
    (h7 : strContains rNews.path consentPathToken = true)
    (rWaPo : RequestModel) (hw : strContains rWaPo.host "washingtonpost.com" = true)
    (rAmazon : RequestModel) (ha : strContains rAmazon.host "amazon" = true)
    (hq : strContains rAmazon.query "kbdirect" = true) :
    getHeader (startRequestHeaders rNews) "Cookie" = some consentCookie ∧
    getHeader (startRequestHeaders rWaPo) "X-Forwarded-For" = some "1.1.1.1" ∧
    getHeader (startRequestHeaders rAmazon) "Referer" = none :=
  ⟨getHeader_startRequestHeaders_cookie_news rNews h1 h2 h3 h4 h5 h6 h7,
    getHeader_startRequestHeaders_xff rWaPo hw,
    getHeader_startRequestHeaders_referer_amazon rAmazon ha hq⟩

/-- A concrete news.google.com request carrying the hard coded path token. -/
def newsGoogleRequest : RequestModel :=
  { host := "news.google.com", path :=
      "/articles/CAAqJggKIiBDQkFTRWdvSUwyMHZNRFZxYUdjU0FtVnVHZ0pWVXlnQVAB",
    query := "", referrerValid := false, referrerSpec := "",
    hasUserAgentSettings := true, userAgentSetting := "TestAgent/1.0",
    acceptLanguageSetting := "en-US,en", acceptLanguageFeatureEnabled := true,
    supportsGzip := true, supportsDeflate := true, supportsBrotli := true,
    enableBrotli := true, schemeIsCryptographic := true, isLocalhost := false,
    extraHeaders := [] }

/-- A concrete washingtonpost.com request. -/
def waPoRequest : RequestModel :=
  { host := "www.washingtonpost.com", path := "/politics", query := "",
    referrerValid := false, referrerSpec := "",
    hasUserAgentSettings := true, userAgentSetting := "TestAgent/1.0",
    acceptLanguageSetting := "en-US,en", acceptLanguageFeatureEnabled := true,
    supportsGzip := true, supportsDeflate := true, supportsBrotli := true,
    enableBrotli := true, schemeIsCryptographic := true, isLocalhost := false,
    extraHeaders := [] }

/-- Witness for C10_fixed_injected_headers at three concrete requests,
with a valid referrer on the amazon request. -/
theorem C10_fixed_injected_headers_witness :
    strContains newsGoogleRequest.host "news.google.com" = true ∧
    strContains newsGoogleRequest.path consentPathToken = true ∧
    strContains waPoRequest.host "washingtonpost.com" = true ∧
    strContains amazonKbRequest.host "amazon" = true ∧
    strContains amazonKbRequest.query "kbdirect" = true ∧
    amazonKbRequest.referrerValid = true ∧
    (getHeader (startRequestHeaders newsGoogleRequest) "Cookie" = some consentCookie ∧
      getHeader (startRequestHeaders waPoRequest) "X-Forwarded-For" = some "1.1.1.1" ∧
      getHeader (startRequestHeaders amazonKbRequest) "Referer" = none) :=
  ⟨by decide, by decide, by decide, by decide, by decide, rfl,
    C10_fixed_injected_headers newsGoogleRequest (by decide) (by decide) (by decide)
      (by decide) (by decide) (by decide) (by decide) waPoRequest (by decide)
      amazonKbRequest (by decide) (by decide)⟩

/-! ### Claim C4 -/

/-- C4: a read completion carrying a length-mismatch error (the pair of
codes ERR_CONTENT_LENGTH_MISMATCH and ERR_INCOMPLETE_CHUNKED_ENCODING
handled by ShouldFixMismatchedContentLength) is converted to success if
and only if the postfilter byte count exactly equals the content length
declared in the response headers; any other byte count leaves the error
intact, and no other error is ever downgraded to success, nor is any
error downgraded when no response headers are available. -/
theorem C4_content_length_mismatch_fix (rv post expected : Int) :
    (shouldFixMismatchedContentLength rv (some expected) post = true ↔
      ((rv = ERR_CONTENT_LENGTH_MISMATCH ∨ rv = ERR_INCOMPLETE_CHUNKED_ENCODING) ∧
        post = expected)) ∧
    (post ≠ expected → onReadCompletedResult rv (some expected) post = rv) ∧
    (∀ cl : Option Int, rv ≠ ERR_CONTENT_LENGTH_MISMATCH →
      rv ≠ ERR_INCOMPLETE_CHUNKED_ENCODING → onReadCompletedResult rv cl post = rv) ∧
    onReadCompletedResult rv none post = rv := by
  refine ⟨?_, ?_, ?_, ?_⟩
  · unfold shouldFixMismatchedContentLength
    by_cases he : rv = ERR_CONTENT_LENGTH_MISMATCH ∨ rv = ERR_INCOMPLETE_CHUNKED_ENCODING
    · simp [he]
    · simp [he]
  · intro hne
    unfold onReadCompletedResult shouldFixMismatchedContentLength
    by_cases he : rv = ERR_CONTENT_LENGTH_MISMATCH ∨ rv = ERR_INCOMPLETE_CHUNKED_ENCODING
    · simp [he, hne]
    · simp [he]
  · intro cl h1 h2
    unfold onReadCompletedResult shouldFixMismatchedContentLength
    simp [h1, h2]
  · unfold onReadCompletedResult shouldFixMismatchedContentLength
    by_cases he : rv = ERR_CONTENT_LENGTH_MISMATCH ∨ rv = ERR_INCOMPLETE_CHUNKED_ENCODING
    · simp [he]
    · simp [he]

/-- Witness for C4_content_length_mismatch_fix: with a declared length of
8 and 7 postfilter bytes the error is preserved; with an exact match the
fix applies; an unrelated error (-2) is never downgraded. -/
theorem C4_content_length_mismatch_fix_witness :
    (7 : Int) ≠ 8 ∧
    onReadCompletedResult ERR_CONTENT_LENGTH_MISMATCH (some 8) 7 =
      ERR_CONTENT_LENGTH_MISMATCH ∧
    shouldFixMismatchedContentLength ERR_CONTENT_LENGTH_MISMATCH (some 7) 7 = true ∧
    onReadCompletedResult (-2) (some 7) 7 = -2 :=
  ⟨by decide,
    (C4_content_length_mismatch_fix ERR_CONTENT_LENGTH_MISMATCH 7 8).2.1 (by decide),
    ((C4_content_length_mismatch_fix ERR_CONTENT_LENGTH_MISMATCH 7 7).1).mpr
      ⟨Or.inl rfl, rfl⟩,
    (C4_content_length_mismatch_fix (-2) 7 7).2.2.1 (some 7) (by decide) (by decide)⟩

/-! ### Claim C5 -/

/-- C5: NeedsAuth returns true and moves the proxy auth state to NEED_AUTH
exactly when the status code is 407 and that state is not already
CANCELED, symmetrically for 401 and the server state; every other status
code returns false and leaves the state unchanged; and once CancelAuth has
canceled the side that a 407 or 401 put in NEED_AUTH, a repeated
NeedsAuth for the same code returns false. -/
theorem C5_needs_auth_cancel_auth (code : Int) (s : AuthJobState) :
    (code = 407 →
      (s.proxy_auth_state ≠ AuthState.AUTH_STATE_CANCELED →
        needsAuth code s =
          (true, { s with proxy_auth_state := AuthState.AUTH_STATE_NEED_AUTH })) ∧
      (s.proxy_auth_state = AuthState.AUTH_STATE_CANCELED →
        needsAuth code s = (false, s))) ∧
    (code = 401 →
      (s.server_auth_state ≠ AuthState.AUTH_STATE_CANCELED →
        needsAuth code s =
          (true, { s with server_auth_state := AuthState.AUTH_STATE_NEED_AUTH })) ∧
      (s.server_auth_state = AuthState.AUTH_STATE_CANCELED →
        needsAuth code s = (false, s))) ∧
    (code ≠ 407 → code ≠ 401 → needsAuth code s = (false, s)) ∧
    ((needsAuth 407 s).1 = true →
      (needsAuth 407 (cancelAuth (needsAuth 407 s).2)).1 = false) ∧
    ((needsAuth 401 s).1 = true → s.proxy_auth_state ≠ AuthState.AUTH_STATE_NEED_AUTH →
      (needsAuth 401 (cancelAuth (needsAuth 401 s).2)).1 = false) := by
  refine ⟨?_, ?_, ?_, ?_, ?_⟩
  · intro hc
    subst hc
    constructor
    · intro hnc
      simp [needsAuth, hnc]
    · intro hcanc
      simp [needsAuth, hcanc]
  · intro hc
    subst hc
    constructor
    · intro hnc
      simp [needsAuth, hnc]
    · intro hcanc
      simp [needsAuth, hcanc]
  · intro h1 h2
    simp [needsAuth, h1, h2]
  · intro h
    by_cases hc : s.proxy_auth_state = AuthState.AUTH_STATE_CANCELED
    · simp [needsAuth, hc] at h
    · simp [needsAuth, cancelAuth, hc]
  · intro h hp
    by_cases hc : s.server_auth_state = AuthState.AUTH_STATE_CANCELED
    · simp [needsAuth, hc] at h
    · simp [needsAuth, cancelAuth, hc, hp]

/-- Witness for C5_needs_auth_cancel_auth: a fresh job sees a 407, sets
the proxy state to NEED_AUTH and returns true; after CancelAuth a
repeated 407 returns false. -/
theorem C5_needs_auth_cancel_auth_witness :
    needsAuth 407
        ⟨AuthState.AUTH_STATE_DONT_NEED_AUTH, AuthState.AUTH_STATE_DONT_NEED_AUTH⟩ =
      (true, ⟨AuthState.AUTH_STATE_NEED_AUTH, AuthState.AUTH_STATE_DONT_NEED_AUTH⟩) ∧
    (needsAuth 407 (cancelAuth (needsAuth 407
      ⟨AuthState.AUTH_STATE_DONT_NEED_AUTH,
        AuthState.AUTH_STATE_DONT_NEED_AUTH⟩).2)).1 = false :=
  ⟨((C5_needs_auth_cancel_auth 407 _).1 rfl).1 (by decide),
    (C5_needs_auth_cancel_auth 407 _).2.2.2.1 (by decide)⟩

/-! ### Claim C6 -/

theorem find?_sts_first (pre : List (String × String)) (x : String × String)
    (post : List (String × String))
    (hpre : ∀ p ∈ pre, p.1 ≠ "Strict-Transport-Security")
    (hx : x.1 = "Strict-Transport-Security") :
    (pre ++ x :: post).find? (fun p => p.1 == "Strict-Transport-Security") = some x := by
  induction pre with
  | nil => simp [List.find?, hx]
  | cons q rest ih =>
    have hq : ¬ (q.1 == "Strict-Transport-Security") = true := by
      simp
      exact hpre q (by simp)
    simp only [List.cons_append, List.find?]
    rw [Bool.of_not_eq_true hq]
    exact ih (fun p hp => hpre p (by simp [hp]))

/-- C6: the Strict-Transport-Security header (whose first line carries
value hv) is forwarded to the security-state store, with exactly that
first value even when duplicate lines follow, if and only if the TLS info
is valid, the certificate status carries no error, the store exists, and
the request host is not a literal IP address. -/
theorem C6_hsts_forwarding (sslIsValid certStatusError securityStatePresent
    hostIsIPAddress : Bool) (host hv : String) (pre post : List (String × String))
    (hpre : ∀ p ∈ pre, p.1 ≠ "Strict-Transport-Security") :
    processStrictTransportSecurityHeader sslIsValid certStatusError securityStatePresent
        hostIsIPAddress host (pre ++ ("Strict-Transport-Security", hv) :: post) =
      if sslIsValid && !certStatusError && securityStatePresent && !hostIsIPAddress then
        some (host, hv)
      else none := by
  unfold processStrictTransportSecurityHeader
  rw [find?_sts_first pre _ post hpre rfl]
  cases sslIsValid <;> cases certStatusError <;> cases securityStatePresent <;>
    cases hostIsIPAddress <;> simp

/-- Witness for C6_hsts_forwarding: with a clean HTTPS connection the
first of two Strict-Transport-Security lines is forwarded; flipping the
certificate-error bit suppresses it entirely. -/
theorem C6_hsts_forwarding_witness :
    (∀ p ∈ [(("X-Frame-Options" : String), ("DENY" : String))],
      p.1 ≠ "Strict-Transport-Security") ∧
    processStrictTransportSecurityHeader true false true false "example.com"
        ([("X-Frame-Options", "DENY")] ++ ("Strict-Transport-Security", "max-age=1000") ::
          [("Strict-Transport-Security", "max-age=0")]) =
      some ("example.com", "max-age=1000") ∧
    processStrictTransportSecurityHeader true true true false "example.com"
        ([("X-Frame-Options", "DENY")] ++ ("Strict-Transport-Security", "max-age=1000") ::
          [("Strict-Transport-Security", "max-age=0")]) = none :=
  ⟨by decide,
    (C6_hsts_forwarding true false true false "example.com" "max-age=1000"
      [("X-Frame-Options", "DENY")] [("Strict-Transport-Security", "max-age=0")]
      (by decide)).trans (by decide),
    (C6_hsts_forwarding true true true false "example.com" "max-age=1000"
      [("X-Frame-Options", "DENY")] [("Strict-Transport-Security", "max-age=0")]
      (by decide)).trans (by decide)⟩

/-! ### Claim C7 -/

/-- The per-job state RestartTransactionWithAuth touches. Opaque pointer
or time values are modeled as Option Unit, none meaning null (for
TimeTicks, the null value base::TimeTicks()). -/
structure RestartState where
  response_info : Option Unit
  override_response_headers : Option Unit
  receive_headers_end : Option Unit
  extra_headers : Headers
  maybe_sent_cookies : List Nat
  maybe_stored_cookies : List Nat
  auth_credentials : Option Unit

/-- URLRequestHttpJob::RestartTransactionWithAuth. It stores the
credentials, clears the response snapshot, the override headers and the
headers-received timestamp, strips the Cookie header from the outgoing
extra headers, clears both per-request cookie lists, and then re-enters
AddCookieHeaderAndStart (passed here as the continuation it tail-calls). -/
def restartTransactionWithAuth {α : Type} (addCookieHeaderAndStart : RestartState → α)
    (credentials : Option Unit) (s : RestartState) : α :=
  addCookieHeaderAndStart
    { response_info := none
      override_response_headers := none
      receive_headers_end := none
      extra_headers := removeHeader s.extra_headers "Cookie"
      maybe_sent_cookies := []
      maybe_stored_cookies := []
      auth_credentials := credentials }

/-- C7: every restart-with-auth clears the response snapshot, the
override response headers and the headers-received timestamp, removes the
previously injected Cookie header and no other outgoing extra header, and
re-enters AddCookieHeaderAndStart with exactly that state. -/
theorem C7_restart_with_auth_clears_state {α : Type} (k : RestartState → α)
    (credentials : Option Unit) (s : RestartState) :
    ∃ s2, restartTransactionWithAuth k credentials s = k s2 ∧
      s2.response_info = none ∧
      s2.override_response_headers = none ∧
      s2.receive_headers_end = none ∧
      getHeader s2.extra_headers "Cookie" = none ∧
      (∀ n, n ≠ "Cookie" → getHeader s2.extra_headers n = getHeader s.extra_headers n) ∧
      s2.maybe_sent_cookies = [] ∧
      s2.maybe_stored_cookies = [] ∧
      s2.auth_credentials = credentials :=
  ⟨_, rfl, rfl, rfl, rfl, getHeader_removeHeader_self _ _,
    fun _ hn => getHeader_removeHeader_ne _ hn, rfl, rfl, rfl⟩

/-- A concrete pre-restart state with an injected Cookie header and a
caller header next to it. -/
def preRestartState : RestartState :=
  { response_info := some (), override_response_headers := some (),
    receive_headers_end := some (),
    extra_headers := [("Cookie", "a=b"), ("X-Custom", "kept")],
    maybe_sent_cookies := [1], maybe_stored_cookies := [2],
    auth_credentials := none }

/-- Witness for C7_restart_with_auth_clears_state at preRestartState. -/
theorem C7_restart_with_auth_clears_state_witness :
    ∃ s2, restartTransactionWithAuth (fun st => st) (some ()) preRestartState = s2 ∧
      s2.response_info = none ∧
      s2.override_response_headers = none ∧
      s2.receive_headers_end = none ∧
      getHeader s2.extra_headers "Cookie" = none ∧
      (∀ n, n ≠ "Cookie" →
        getHeader s2.extra_headers n = getHeader preRestartState.extra_headers n) ∧
      s2.maybe_sent_cookies = [] ∧
      s2.maybe_stored_cookies = [] ∧
      s2.auth_credentials = some () :=
  C7_restart_with_auth_clears_state (fun st => st) (some ()) preRestartState

/-! ### Claim C8 -/

/-- C8: a redirect target with scheme http or https is always safe (the
hypothesis hwf records the GURL invariant that an invalid URL reports an
empty scheme); for any other scheme the verdict is delegated to the job
factory when present, and is unsafe when the factory is absent. -/
theorem C8_is_safe_redirect (jf : Option (RedirectLocation → Bool))
    (location : RedirectLocation)
    (hwf : location.is_valid = false → location.scheme = "") :
    ((location.scheme = "http" ∨ location.scheme = "https") →
      isSafeRedirect jf location = true) ∧
    ((location.scheme ≠ "http" ∧ location.scheme ≠ "https") →
      isSafeRedirect jf location =
        (match jf with | some f => f location | none => false)) ∧
    (jf = none → location.scheme ≠ "http" → location.scheme ≠ "https" →
      isSafeRedirect jf location = false) := by
  refine ⟨?_, ?_, ?_⟩
  · intro hs
    have hv : location.is_valid = true := by
      cases hval : location.is_valid with
      | true => rfl
      | false =>
        rcases hs with h | h <;> rw [hwf hval] at h <;> exact absurd h (by decide)
    rcases hs with h | h <;> simp [isSafeRedirect, hv, h]
  · intro h
    have e1 : (location.scheme == "http") = false := beq_eq_false_iff_ne.mpr h.1
    have e2 : (location.scheme == "https") = false := beq_eq_false_iff_ne.mpr h.2
    simp [isSafeRedirect, e1, e2]
  · intro hjf h1 h2
    subst hjf
    have e1 : (location.scheme == "http") = false := beq_eq_false_iff_ne.mpr h1
    have e2 : (location.scheme == "https") = false := beq_eq_false_iff_ne.mpr h2
    simp [isSafeRedirect, e1, e2]

/-- Witness for C8_is_safeRedirect: without a job factory a valid ftp
target is unsafe while a valid https target is safe. -/
theorem C8_is_safe_redirect_witness :
    ((⟨true, "ftp"⟩ : RedirectLocation).is_valid = false →
      (⟨true, "ftp"⟩ : RedirectLocation).scheme = "") ∧
    isSafeRedirect none ⟨true, "ftp"⟩ = false ∧
    isSafeRedirect none ⟨true, "https"⟩ = true :=
  ⟨by decide,
    (C8_is_safe_redirect none ⟨true, "ftp"⟩ (by decide)).2.2 rfl (by decide) (by decide),
    (C8_is_safe_redirect none ⟨true, "https"⟩ (by decide)).1 (Or.inr rfl)⟩

/-! ## URLRequestHttpJob::SetUpSourceStream

The input is the list of Content-Encoding tokens in header order, already
mapped through FilterSourceStream::ParseEncodingType (an external parser):
gzip, deflate and br map to their types, identity maps to TYPE_NONE and
anything else to TYPE_UNKNOWN. accepted is
request_->accepted_stream_types(): none when the request carries no
allow-set, some l otherwise. brotliOk and gzipOk state whether
CreateBrotliSourceStream and GzipSourceStream::Create return a non-null
stream when invoked. -/

inductive SourceType where
  | TYPE_BROTLI
  | TYPE_DEFLATE
  | TYPE_GZIP
  | TYPE_NONE
  | TYPE_UNKNOWN
  deriving DecidableEq

inductive SourceStreamChain where
  | upstream
  | brotliStage (inner : SourceStreamChain)
  | gzipStage (t : SourceType) (inner : SourceStreamChain)
  deriving DecidableEq

/-- The allow-set test of the first loop: true when either no allow-set is
configured or the set contains the type. -/
def acceptedOk (accepted : Option (List SourceType)) (t : SourceType) : Bool :=
  match accepted with
  | none => true
  | some l => l.contains t

/-- The first loop of SetUpSourceStream: accumulate recognized accepted
types in header order; none here means the loop returned the raw upstream
early (identity, unknown, or excluded token). -/
def collectTypes (accepted : Option (List SourceType)) :
    List SourceType → Option (List SourceType)
  | [] => some []
  | t :: rest =>
    match t with
    | SourceType.TYPE_BROTLI | SourceType.TYPE_DEFLATE | SourceType.TYPE_GZIP =>
      if acceptedOk accepted t then (collectTypes accepted rest).map (fun l => t :: l)
      else none
    | SourceType.TYPE_NONE => none
    | SourceType.TYPE_UNKNOWN => none

/-- One iteration of the second loop: wrap the current upstream in the
decode stage for t, none when stage construction fails. -/
def createStage (brotliOk gzipOk : Bool) (t : SourceType) (up : SourceStreamChain) :
    Option SourceStreamChain :=
  match t with
  | SourceType.TYPE_BROTLI =>
    if brotliOk then some (SourceStreamChain.brotliStage up) else none
  | SourceType.TYPE_GZIP =>
    if gzipOk then some (SourceStreamChain.gzipStage SourceType.TYPE_GZIP up) else none
  | SourceType.TYPE_DEFLATE =>
    if gzipOk then some (SourceStreamChain.gzipStage SourceType.TYPE_DEFLATE up) else none
  | SourceType.TYPE_NONE => none
  | SourceType.TYPE_UNKNOWN => none

/-- The second loop of SetUpSourceStream, iterating the collected types in
reverse header order, threading the upstream, aborting on a failed stage. -/
def buildChain (brotliOk gzipOk : Bool) :
    List SourceType → SourceStreamChain → Option SourceStreamChain
  | [], up => some up
  | t :: rest, up =>
    match createStage brotliOk gzipOk t up with
    | none => none
    | some down => buildChain brotliOk gzipOk rest down

/-- URLRequestHttpJob::SetUpSourceStream, given that response_info_ is
present. -/
def setUpSourceStream (brotliOk gzipOk : Bool) (accepted : Option (List SourceType))
    (tokens : List SourceType) : Option SourceStreamChain :=
  match collectTypes accepted tokens with
  | none => some SourceStreamChain.upstream
  | some types => buildChain brotliOk gzipOk types.reverse SourceStreamChain.upstream

/-- The decode order of a chain: the stage closest to the raw upstream
bytes decodes first, so the list enumerates stages from innermost to
outermost. -/
def decodeOrder : SourceStreamChain → List SourceType
  | SourceStreamChain.upstream => []
  | SourceStreamChain.brotliStage inner => decodeOrder inner ++ [SourceType.TYPE_BROTLI]
  | SourceStreamChain.gzipStage t inner => decodeOrder inner ++ [t]

theorem collectTypes_eq_none_of_bad (accepted : Option (List SourceType))
    (tokens : List SourceType)
    (hbad : ∃ t ∈ tokens, t = SourceType.TYPE_NONE ∨ t = SourceType.TYPE_UNKNOWN ∨
      acceptedOk accepted t = false) :
    collectTypes accepted tokens = none := by
  induction tokens with
  | nil => simp at hbad
  | cons t rest ih =>
    obtain ⟨u, hu, hbadu⟩ := hbad
    rcases List.mem_cons.mp hu with he | hmem
    · subst he
      cases u with
      | TYPE_NONE => rfl
      | TYPE_UNKNOWN => rfl
      | TYPE_BROTLI =>
        rcases hbadu with h | h | h
        · exact absurd h (by decide)
        · exact absurd h (by decide)
        · simp [collectTypes, h]
      | TYPE_DEFLATE =>
        rcases hbadu with h | h | h
        · exact absurd h (by decide)
        · exact absurd h (by decide)
        · simp [collectTypes, h]
      | TYPE_GZIP =>
        rcases hbadu with h | h | h
        · exact absurd h (by decide)
        · exact absurd h (by decide)
        · simp [collectTypes, h]
    · have hrest := ih ⟨u, hmem, hbadu⟩
      cases t <;> simp [collectTypes, hrest]

theorem collectTypes_eq_some_of_good (accepted : Option (List SourceType))
    (tokens : List SourceType)
    (hgood : ∀ t ∈ tokens, (t = SourceType.TYPE_BROTLI ∨ t = SourceType.TYPE_DEFLATE ∨
      t = SourceType.TYPE_GZIP) ∧ acceptedOk accepted t = true) :
    collectTypes accepted tokens = some tokens := by
  induction tokens with
  | nil => rfl
  | cons t rest ih =>
    have ht := hgood t (by simp)
    have hrest := ih (fun u hu => hgood u (by simp [hu]))
    rcases ht.1 with he | he | he <;> subst he <;> simp [collectTypes, ht.2, hrest]

theorem buildChain_spec (l : List SourceType) :
    ∀ up : SourceStreamChain,
    (∀ t ∈ l, t = SourceType.TYPE_BROTLI ∨ t = SourceType.TYPE_DEFLATE ∨
      t = SourceType.TYPE_GZIP) →
    ∃ s, buildChain true true l up = some s ∧ decodeOrder s = decodeOrder up ++ l := by
  induction l with
  | nil => intro up _; exact ⟨up, rfl, by simp⟩
  | cons t rest ih =>
    intro up hgood
    have ht := hgood t (by simp)
    have hrest : ∀ u ∈ rest, u = SourceType.TYPE_BROTLI ∨ u = SourceType.TYPE_DEFLATE ∨
        u = SourceType.TYPE_GZIP := fun u hu => hgood u (by simp [hu])
    rcases ht with he | he | he <;> subst he
    · obtain ⟨s, hs, hd⟩ := ih (SourceStreamChain.brotliStage up) hrest
      exact ⟨s, by simpa [buildChain, createStage] using hs, by simp [hd, decodeOrder]⟩
    · obtain ⟨s, hs, hd⟩ := ih (SourceStreamChain.gzipStage SourceType.TYPE_DEFLATE up) hrest
      exact ⟨s, by simpa [buildChain, createStage] using hs, by simp [hd, decodeOrder]⟩
    · obtain ⟨s, hs, hd⟩ := ih (SourceStreamChain.gzipStage SourceType.TYPE_GZIP up) hrest
      exact ⟨s, by simpa [buildChain, createStage] using hs, by simp [hd, decodeOrder]⟩

theorem buildChain_eq_none_of_failing (brotliOk gzipOk : Bool) (l : List SourceType) :
    ∀ up : SourceStreamChain,
    (∃ t ∈ l, ∀ u : SourceStreamChain, createStage brotliOk gzipOk t u = none) →
    buildChain brotliOk gzipOk l up = none := by
  induction l with
  | nil => intro up h; simp at h
  | cons t rest ih =>
    intro up h
    obtain ⟨v, hv, hfail⟩ := h
    rcases List.mem_cons.mp hv with he | hmem
    · subst he
      simp [buildChain, hfail up]
    · cases hc : createStage brotliOk gzipOk t up with
      | none => simp [buildChain, hc]
      | some down => simp [buildChain, hc, ih down ⟨v, hmem, hfail⟩]

/-- C3: for every Content-Encoding token list, SetUpSourceStream returns
the raw pass-through stream when any token anywhere in the list is
identity, unknown, or excluded by the accepted-stream-types allow-set;
otherwise, when every stage construction succeeds, it returns a pipeline
with exactly one stage per token whose decode order is the reverse of the
header order, and when the construction of a needed stage fails the whole
result is null. -/
theorem C3_set_up_source_stream (brotliOk gzipOk : Bool)
    (accepted : Option (List SourceType)) (tokens : List SourceType) :
    ((∃ t ∈ tokens, t = SourceType.TYPE_NONE ∨ t = SourceType.TYPE_UNKNOWN ∨
        acceptedOk accepted t = false) →
      setUpSourceStream brotliOk gzipOk accepted tokens = some SourceStreamChain.upstream) ∧
    ((∀ t ∈ tokens, (t = SourceType.TYPE_BROTLI ∨ t = SourceType.TYPE_DEFLATE ∨
        t = SourceType.TYPE_GZIP) ∧ acceptedOk accepted t = true) →
      (brotliOk = true → gzipOk = true →
        ∃ s, setUpSourceStream brotliOk gzipOk accepted tokens = some s ∧
          decodeOrder s = tokens.reverse) ∧
      (((SourceType.TYPE_BROTLI ∈ tokens ∧ brotliOk = false) ∨
          ((SourceType.TYPE_GZIP ∈ tokens ∨ SourceType.TYPE_DEFLATE ∈ tokens) ∧
            gzipOk = false)) →
        setUpSourceStream brotliOk gzipOk accepted tokens = none)) := by
  constructor
  · intro hbad
    unfold setUpSourceStream
    rw [collectTypes_eq_none_of_bad accepted tokens hbad]
  · intro hgood
    have hsome := collectTypes_eq_some_of_good accepted tokens hgood
    constructor
    · intro hb hg
      subst hb
      subst hg
      obtain ⟨s, hs, hd⟩ := buildChain_spec tokens.reverse SourceStreamChain.upstream
        (fun t ht => (hgood t (List.mem_reverse.mp ht)).1)
      refine ⟨s, ?_, by simpa [decodeOrder] using hd⟩
      unfold setUpSourceStream
      rw [hsome]
      exact hs
    · intro hfail
      unfold setUpSourceStream
      rw [hsome]
      apply buildChain_eq_none_of_failing
      rcases hfail with ⟨hmem, hbf⟩ | ⟨hmem, hgf⟩
      · subst hbf
        exact ⟨SourceType.TYPE_BROTLI, List.mem_reverse.mpr hmem,
          fun u => by simp [createStage]⟩
      · subst hgf
        rcases hmem with hmem | hmem
        · exact ⟨SourceType.TYPE_GZIP, List.mem_reverse.mpr hmem,
            fun u => by simp [createStage]⟩
        · exact ⟨SourceType.TYPE_DEFLATE, List.mem_reverse.mpr hmem,
            fun u => by simp [createStage]⟩

/-- Witness for C3_set_up_source_stream: an unknown token anywhere yields
pass-through; the Content-Encoding list gzip, br decodes br first (the
brotli stage sits innermost, next to the raw bytes) and gzip second; and
a failing brotli stage construction nulls the whole pipeline. -/
theorem C3_set_up_source_stream_witness :
    setUpSourceStream true true none
        [SourceType.TYPE_UNKNOWN, SourceType.TYPE_GZIP] =
      some SourceStreamChain.upstream ∧
    (∃ s, setUpSourceStream true true none
        [SourceType.TYPE_GZIP, SourceType.TYPE_BROTLI] = some s ∧
      decodeOrder s = [SourceType.TYPE_BROTLI, SourceType.TYPE_GZIP]) ∧
    setUpSourceStream false true none
        [SourceType.TYPE_GZIP, SourceType.TYPE_BROTLI] = none := by
  refine ⟨?_, ?_, ?_⟩
  · exact (C3_set_up_source_stream true true none _).1
      ⟨SourceType.TYPE_UNKNOWN, by simp, by simp⟩
  · exact ((C3_set_up_source_stream true true none _).2 (by decide)).1 rfl rfl
  · exact ((C3_set_up_source_stream false true none _).2 (by decide)).2
      (Or.inl ⟨by simp, rfl⟩)

/-! ## SaveCookiesAndNotifyHeadersComplete and OnSetCookieResult

A Set-Cookie line either fails parsing or the CanSetCookie admission check
(SetCookieLine.rejected: OnSetCookieResult runs synchronously inside the
loop) or is submitted to the jar (SetCookieLine.accepted: the
OnSetCookieResult callback fires later, in any order). Lines carry an id
so that out-of-order completion is observable in the stored list.
CookieNotifyState tracks num_cookie_lines_left_ (an Int, as in the code),
set_cookie_access_result_list_ (stored, as the list of line ids), and the
lists published by the NotifyHeadersComplete calls performed so far, so
that the exactly-once property is the statement that published has length
one. -/

inductive SetCookieLine where
  | rejected (id : Nat)
  | accepted (id : Nat)
  deriving DecidableEq

structure CookieNotifyState where
  num_cookie_lines_left : Int
  stored : List Nat
  published : List (List Nat)
  deriving DecidableEq

/-- NotifyHeadersComplete, restricted to its cookie bookkeeping: it hands
set_cookie_access_result_list_ to the request (recorded in published) and
clears it. -/
def notifyHeadersComplete (s : CookieNotifyState) : CookieNotifyState :=
  { num_cookie_lines_left := s.num_cookie_lines_left
    stored := []
    published := s.published ++ [s.stored] }

/-- URLRequestHttpJob::OnSetCookieResult: record the line result,
decrement num_cookie_lines_left_, and call NotifyHeadersComplete exactly
when the counter reaches zero. -/
def onSetCookieResult (id : Nat) (s : CookieNotifyState) : CookieNotifyState :=
  let s1 : CookieNotifyState :=
    { num_cookie_lines_left := s.num_cookie_lines_left - 1
      stored := s.stored ++ [id]
      published := s.published }
  if s1.num_cookie_lines_left = 0 then notifyHeadersComplete s1 else s1

/-- The Set-Cookie enumeration loop: increment the counter before each
line, then either run OnSetCookieResult synchronously (rejected line) or
leave the jar callback pending (accepted line). -/
def saveCookiesLoop : List SetCookieLine → CookieNotifyState → CookieNotifyState
  | [], s => s
  | line :: rest, s =>
    let s1 : CookieNotifyState :=
      { s with num_cookie_lines_left := s.num_cookie_lines_left + 1 }
    let s2 :=
      match line with
      | SetCookieLine.rejected id => onSetCookieResult id s1
      | SetCookieLine.accepted _ => s1
    saveCookiesLoop rest s2

/-- The synchronous part of SaveCookiesAndNotifyHeadersComplete on the
cookie-saving path: the counter starts at 1, the loop runs, the loop exit
removes that initial 1 and notifies immediately when nothing is pending. -/
def saveCookiesAndNotifyHeadersComplete (lines : List SetCookieLine) : CookieNotifyState :=
  let s0 : CookieNotifyState := { num_cookie_lines_left := 1, stored := [], published := [] }
  let s1 := saveCookiesLoop lines s0
  let s2 : CookieNotifyState :=
    { s1 with num_cookie_lines_left := s1.num_cookie_lines_left - 1 }
  if s2.num_cookie_lines_left = 0 then notifyHeadersComplete s2 else s2

/-- Deliver the pending jar callbacks in the given order. -/
def runCallbacks : List Nat → CookieNotifyState → CookieNotifyState
  | [], s => s
  | id :: rest, s => runCallbacks rest (onSetCookieResult id s)

def acceptedIds : List SetCookieLine → List Nat
  | [] => []
  | SetCookieLine.accepted id :: rest => id :: acceptedIds rest
  | SetCookieLine.rejected _ :: rest => acceptedIds rest

def rejectedIds : List SetCookieLine → List Nat
  | [] => []
  | SetCookieLine.rejected id :: rest => id :: rejectedIds rest
  | SetCookieLine.accepted _ :: rest => rejectedIds rest

/-- A complete run: the synchronous enumeration followed by the pending
jar callbacks delivered in the given order. -/
def fullRun (lines : List SetCookieLine) (order : List Nat) : CookieNotifyState :=
  runCallbacks order (saveCookiesAndNotifyHeadersComplete lines)

theorem onSetCookieResult_run (id : Nat) (k : Int) (r : List Nat) (p : List (List Nat)) :
    onSetCookieResult id { num_cookie_lines_left := k, stored := r, published := p } =
      if k - 1 = 0 then
        { num_cookie_lines_left := k - 1, stored := [], published := p ++ [r ++ [id]] }
      else
        { num_cookie_lines_left := k - 1, stored := r ++ [id], published := p } := by
  by_cases h : k - 1 = 0 <;> simp [onSetCookieResult, notifyHeadersComplete, h]

theorem saveCookiesLoop_spec (lines : List SetCookieLine) :
    ∀ s : CookieNotifyState, 1 ≤ s.num_cookie_lines_left →
    saveCookiesLoop lines s =
      { num_cookie_lines_left :=
          s.num_cookie_lines_left + ((acceptedIds lines).length : Int)
        stored := s.stored ++ rejectedIds lines
        published := s.published } := by
  induction lines with
  | nil => intro s hs; simp [saveCookiesLoop, acceptedIds, rejectedIds]
  | cons line rest ih =>
    intro s hs
    cases line with
    | accepted id =>
      simp only [saveCookiesLoop]
      rw [ih _ (show (1 : Int) ≤ s.num_cookie_lines_left + 1 by omega)]
      simp [acceptedIds, rejectedIds]
      omega
    | rejected id =>
      simp only [saveCookiesLoop, onSetCookieResult_run]
      rw [if_neg (show ¬(s.num_cookie_lines_left + 1 - 1 = 0) by omega)]
      rw [ih _ (show (1 : Int) ≤ s.num_cookie_lines_left + 1 - 1 by omega)]
      simp [acceptedIds, rejectedIds]

theorem saveCookies_spec (lines : List SetCookieLine) :
    saveCookiesAndNotifyHeadersComplete lines =
      if (acceptedIds lines).length = 0 then
        { num_cookie_lines_left := 0, stored := [], published := [rejectedIds lines] }
      else
        { num_cookie_lines_left := ((acceptedIds lines).length : Int)
          stored := rejectedIds lines
          published := [] } := by
  simp only [saveCookiesAndNotifyHeadersComplete]
  rw [saveCookiesLoop_spec lines _ (by norm_num)]
  by_cases h : (acceptedIds lines).length = 0
  · simp [h, notifyHeadersComplete]
  · have hne : ¬((1 : Int) + ((acceptedIds lines).length : Int) - 1 = 0) := by omega
    simp [h, hne]

theorem runCallbacks_spec (c : List Nat) :
    ∀ (k : Int) (r : List Nat), 0 < k → (c.length : Int) ≤ k →
    runCallbacks c { num_cookie_lines_left := k, stored := r, published := [] } =
      if (c.length : Int) = k then
        { num_cookie_lines_left := 0, stored := [], published := [r ++ c] }
      else
        { num_cookie_lines_left := k - c.length, stored := r ++ c, published := [] } := by
  induction c with
  | nil =>
    intro k r hk hle
    rw [if_neg (by simp; omega)]
    simp [runCallbacks]
  | cons id rest ih =>
    intro k r hk hle
    have hle2 : (rest.length : Int) + 1 ≤ k := by
      have h := hle
      simp only [List.length_cons] at h
      push_cast at h
      omega
    simp only [runCallbacks, onSetCookieResult_run]
    by_cases h1 : k - 1 = 0
    · have hrest : rest = [] := by
        have h0 : rest.length = 0 := by omega
        exact List.length_eq_zero.mp h0
      subst hrest
      rw [if_pos h1, if_pos (by simp; omega)]
      simp [runCallbacks, h1]
    · rw [if_neg h1]
      rw [ih (k - 1) (r ++ [id]) (by omega) (by omega)]
      by_cases h3 : ((rest.length : Int) = k - 1)
      · rw [if_pos h3, if_pos (by simp only [List.length_cons]; push_cast; omega)]
        simp
      · rw [if_neg h3, if_neg (by simp only [List.length_cons]; push_cast; omega)]
        simp [List.length_cons]
        omega

/-- C1: for every response with any number of Set-Cookie lines (each
either synchronously rejected or asynchronously written to the jar, the
jar callbacks completing in an arbitrary order given by a permutation of
the pending line ids), NotifyHeadersComplete runs exactly once, with the
counter at zero, and never before the last pending callback has resolved;
with no lines at all it runs immediately after the loop with an empty
stored-cookie result list. -/
theorem C1_notify_headers_complete_exactly_once (lines : List SetCookieLine)
    (order : List Nat) (hperm : order.Perm (acceptedIds lines)) :
    (fullRun lines order).published.length = 1 ∧
    (fullRun lines order).num_cookie_lines_left = 0 ∧
    (∀ j, j < order.length →
      (runCallbacks (order.take j)
        (saveCookiesAndNotifyHeadersComplete lines)).published = []) ∧
    (lines = [] →
      saveCookiesAndNotifyHeadersComplete lines =
        { num_cookie_lines_left := 0, stored := [], published := [[]] }) := by
  have hlen : order.length = (acceptedIds lines).length := hperm.length_eq
  by_cases hz : (acceptedIds lines).length = 0
  · have hord : order = [] := List.length_eq_zero.mp (by omega)
    subst hord
    have hs := saveCookies_spec lines
    rw [if_pos hz] at hs
    refine ⟨?_, ?_, ?_, ?_⟩
    · simp [fullRun, runCallbacks, hs]
    · simp [fullRun, runCallbacks, hs]
    · intro j hj
      simp at hj
    · intro hnil
      subst hnil
      rw [hs]
      simp [rejectedIds]
  · have hs := saveCookies_spec lines
    rw [if_neg hz] at hs
    have hpos : (0 : Int) < ((acceptedIds lines).length : Int) := by omega
    have hrun := runCallbacks_spec order ((acceptedIds lines).length : Int)
      (rejectedIds lines) hpos (by omega)
    rw [if_pos (by omega)] at hrun
    refine ⟨?_, ?_, ?_, ?_⟩
    · simp only [fullRun]
      rw [hs, hrun]
      rfl
    · simp only [fullRun]
      rw [hs, hrun]
    · intro j hj
      have htake : ((order.take j).length : Int) = (j : Int) := by
        simp [List.length_take]
        omega
      have hrunj := runCallbacks_spec (order.take j) ((acceptedIds lines).length : Int)
        (rejectedIds lines) hpos (by rw [htake]; omega)
      rw [if_neg (by rw [htake]; omega)] at hrunj
      rw [hs, hrunj]
    · intro hnil
      subst hnil
      simp [acceptedIds] at hz

/-- Three Set-Cookie lines: line 0 rejected synchronously, lines 1 and 2
pending in the jar, completing out of order. -/
def demoCookieLines : List SetCookieLine :=
  [SetCookieLine.rejected 0, SetCookieLine.accepted 1, SetCookieLine.accepted 2]

/-- Witness for C1_notify_headers_complete_exactly_once at demoCookieLines
with the jar callbacks delivered out of order. -/
theorem C1_notify_headers_complete_exactly_once_witness :
    ([2, 1] : List Nat).Perm (acceptedIds demoCookieLines) ∧
    ((fullRun demoCookieLines [2, 1]).published.length = 1 ∧
      (fullRun demoCookieLines [2, 1]).num_cookie_lines_left = 0 ∧
      (∀ j, j < ([2, 1] : List Nat).length →
        (runCallbacks (([2, 1] : List Nat).take j)
          (saveCookiesAndNotifyHeadersComplete demoCookieLines)).published = []) ∧
      (demoCookieLines = [] →
        saveCookiesAndNotifyHeadersComplete demoCookieLines =
          { num_cookie_lines_left := 0, stored := [], published := [[]] })) :=
  ⟨by decide, C1_notify_headers_complete_exactly_once demoCookieLines [2, 1] (by decide)⟩

end UrlRequestHttpJob
